import Mathlib

/-!
Verification development for the SP3-format orbit conversion program
(`source/programs/conversion/sp3Format2Orbit.cpp`).

Modelling choices:
* `double` scalars are modelled as rationals (`ℚ`); `std::sqrt(3.)` is the
  environment constant `sqrt3` (in the program it is a runtime `double`, not
  the exact real square root).
* External collaborators that live outside this translation unit — the
  gravity-field model, the earth-rotation model, the calendar conversion
  `date2time`, the leap-second conversion `timeUTC2GPS` and the constant
  `DELTA_TAI_GPS` — are fields of an environment record `Env`.
* One text line of an input file is modelled by the inductive `Line`,
  already classified by its fixed prefix and with its fixed-column numeric
  fields decoded; a line whose numeric decoding throws is `Line.bad`
  (all record handlers in the source decode every field before mutating
  any accumulator, so a failed line has no partial effect).
* `std::vector::back()` on an empty vector is undefined behaviour; the
  velocity handler models it by returning `none`.
-/

namespace Sp3

/-- A 3-component vector (`Vector3d` of the source's base library). -/
structure Vector3d where
  x : ℚ
  y : ℚ
  z : ℚ
deriving DecidableEq

def Vector3d.zero : Vector3d := ⟨0, 0, 0⟩

def Vector3d.add (a b : Vector3d) : Vector3d := ⟨a.x + b.x, a.y + b.y, a.z + b.z⟩

def Vector3d.sub (a b : Vector3d) : Vector3d := ⟨a.x - b.x, a.y - b.y, a.z - b.z⟩

def Vector3d.smul (c : ℚ) (v : Vector3d) : Vector3d := ⟨c * v.x, c * v.y, c * v.z⟩

def Vector3d.dot (a b : Vector3d) : ℚ := a.x * b.x + a.y * b.y + a.z * b.z

/-- The `crossProduct` of the source's vector library. -/
def crossProduct (a b : Vector3d) : Vector3d :=
  ⟨a.y * b.z - a.z * b.y, a.z * b.x - a.x * b.z, a.x * b.y - a.y * b.x⟩

/-- Norm test: `v.r()` is the Euclidean norm; the program only ever tests it for
truthiness (`if(pos.r())`), which over the rationals is exactly `v ≠ 0`. -/
abbrev Vector3d.rNonzero (v : Vector3d) : Prop := v ≠ Vector3d.zero

/-- A 3×3 matrix stored by rows (`Rotary3d` of the source's base library). -/
structure Rotary3d where
  r0 : Vector3d
  r1 : Vector3d
  r2 : Vector3d
deriving DecidableEq

def Rotary3d.identityMatrix : Rotary3d := ⟨⟨1, 0, 0⟩, ⟨0, 1, 0⟩, ⟨0, 0, 1⟩⟩

def Rotary3d.rotate (M : Rotary3d) (v : Vector3d) : Vector3d :=
  ⟨M.r0.dot v, M.r1.dot v, M.r2.dot v⟩

def Rotary3d.transpose (M : Rotary3d) : Rotary3d :=
  ⟨⟨M.r0.x, M.r1.x, M.r2.x⟩, ⟨M.r0.y, M.r1.y, M.r2.y⟩, ⟨M.r0.z, M.r1.z, M.r2.z⟩⟩

def Rotary3d.col0 (M : Rotary3d) : Vector3d := ⟨M.r0.x, M.r1.x, M.r2.x⟩

def Rotary3d.col1 (M : Rotary3d) : Vector3d := ⟨M.r0.y, M.r1.y, M.r2.y⟩

def Rotary3d.col2 (M : Rotary3d) : Vector3d := ⟨M.r0.z, M.r1.z, M.r2.z⟩

def Rotary3d.matMul (A B : Rotary3d) : Rotary3d :=
  ⟨⟨A.r0.dot B.col0, A.r0.dot B.col1, A.r0.dot B.col2⟩,
   ⟨A.r1.dot B.col0, A.r1.dot B.col1, A.r1.dot B.col2⟩,
   ⟨A.r2.dot B.col0, A.r2.dot B.col1, A.r2.dot B.col2⟩⟩

/-- Modelled from the spec: `Rotary3d` holds an orthonormal rotation
(terrestrial↔celestial), whose inverse is its transpose.  The `inverse`
function itself lives outside this translation unit. -/
def Rotary3d.inverse (M : Rotary3d) : Rotary3d := M.transpose

/-- Symmetric 3×3 tensor with six stored components (`Tensor3d`); the
component order matches `Covariance3dEpoch::setData`:
`[xx, yy, zz, xy, xz, yz]`. -/
structure Tensor3d where
  xx : ℚ
  yy : ℚ
  zz : ℚ
  xy : ℚ
  xz : ℚ
  yz : ℚ
deriving DecidableEq

def Tensor3d.toMatrix (t : Tensor3d) : Rotary3d :=
  ⟨⟨t.xx, t.xy, t.xz⟩, ⟨t.xy, t.yy, t.yz⟩, ⟨t.xz, t.yz, t.zz⟩⟩

/-- Quadratic form `vᵀ T v` of a symmetric tensor. -/
def Tensor3d.quadForm (t : Tensor3d) (v : Vector3d) : ℚ :=
  t.xx * v.x ^ 2 + t.yy * v.y ^ 2 + t.zz * v.z ^ 2 +
    2 * (t.xy * v.x * v.y + t.xz * v.x * v.z + t.yz * v.y * v.z)

/-- Positive semi-definiteness of a symmetric tensor. -/
def Tensor3d.PosSemidef (t : Tensor3d) : Prop :=
  ∀ v : Vector3d, 0 ≤ t.quadForm v

/-- Modelled from the spec: rotating a symmetric tensor applies the same
rotation as positions on both sides, `R T Rᵀ` (the `Rotary3d::rotate`
overload for tensors lives outside this translation unit). -/
def Tensor3d.rotateBy (M : Rotary3d) (t : Tensor3d) : Tensor3d :=
  let A := M.matMul ((t.toMatrix).matMul M.transpose)
  ⟨A.r0.x, A.r1.y, A.r2.z, A.r0.y, A.r0.z, A.r1.z⟩

/-- Degree/order-1 spherical-harmonics answer of the gravity-field
collaborator: the coefficient vector `x() = [c00, c10, c11, s11]` and the
reference radius `R()`. -/
structure SphericalHarmonics where
  c00 : ℚ
  c10 : ℚ
  c11 : ℚ
  s11 : ℚ
  R : ℚ

/-- Earth-rotation collaborator: `rotaryMatrix(time)` and
`rotaryAxis(time)`. -/
structure EarthRotationModel where
  rotaryMatrix : ℚ → Rotary3d
  rotaryAxis : ℚ → Vector3d

/-- Calendar fields of an epoch-header line. -/
structure Calendar where
  year : ℕ
  month : ℕ
  day : ℕ
  hour : ℕ
  minute : ℕ
  sec : ℚ
deriving DecidableEq

/-- Environment of external collaborators and constants used by
`Sp3Format2Orbit::run`. -/
structure Env where
  sqrt3 : ℚ
  deltaTaiGps : ℚ
  date2time : Calendar → ℚ
  timeUTC2GPS : ℚ → ℚ
  sphericalHarmonics : ℚ → SphericalHarmonics
  earthRotation : Option EarthRotationModel

/-- An `OrbitEpoch`: the velocity is `none` while unset, `some v` after a
velocity line filled it in. -/
structure OrbitEpoch where
  time : ℚ
  position : Vector3d
  velocity : Option Vector3d
deriving DecidableEq

/-- A `MiscValueEpoch` as used for the clock sequence. -/
structure MiscValueEpoch where
  time : ℚ
  value : ℚ
deriving DecidableEq

/-- A `Covariance3dEpoch`. -/
structure Covariance3dEpoch where
  time : ℚ
  covariance : Tensor3d
deriving DecidableEq

/-- The three per-satellite accumulators `std::map<std::string, …Arc>`,
modelled as association lists with unique keys by construction. -/
abbrev SatMap (ε : Type) := List (String × List ε)

def SatMap.get {ε : Type} : SatMap ε → String → List ε
  | [], _ => []
  | (k, v) :: rest, k' => if k = k' then v else SatMap.get rest k'

/-- Push: `m[k].push_back(e)` appends `e` to the arc of key `k`, creating the
entry when absent (as `std::map::operator[]` does). -/
def SatMap.push {ε : Type} : SatMap ε → String → ε → SatMap ε
  | [], k, e => [(k, [e])]
  | (k', v) :: rest, k, e =>
    if k' = k then (k', v ++ [e]) :: rest else (k', v) :: SatMap.push rest k e

/-- Replace the whole arc stored at key `k` (creating it when absent). -/
def SatMap.setArc {ε : Type} : SatMap ε → String → List ε → SatMap ε
  | [], k, l => [(k, l)]
  | (k', v) :: rest, k, l =>
    if k' = k then (k', l) :: rest else (k', v) :: SatMap.setArc rest k l

/-- Replace the last element of a list (used for the in-place
`back().velocity = …` mutation). -/
def setLast {α : Type} (l : List α) (a : α) : List α := l.dropLast ++ [a]

/-- The declared `enum TimeSystem {GPS, UTC, TAI}`. -/
inductive TimeSystem
  | GPS
  | UTC
  | TAI
deriving DecidableEq

/-- One input line, classified by its fixed prefix, fixed-column numeric
fields already decoded.  `bad` is a recognized record line one of whose
numeric fields fails to decode (`String::toInt` / `String::toDouble`
throws); `other` is a line matching none of the prefixes, which the loop
silently skips. -/
inductive Line
  | headerMeta
  | satList (count : ℤ) (firstId : String)
  | timeSys (tag : String)
  | epochHeader (cal : Calendar)
  | position (id : String) (x y z c : ℚ)
  | covarLine (xx yy zz xy xz yz : ℚ)
  | velocity (id : String) (x y z : ℚ)
  | eofLine
  | other
  | bad
deriving DecidableEq

/-- Per-file mutable locals of the read loop (lines 91–97 of the source);
re-initialized for every input file. -/
structure FileState where
  timeSystem : TimeSystem
  time : ℚ
  satId : String
  rotation : Rotary3d
  omega : Vector3d
  cm2ceCorrection : Vector3d
deriving DecidableEq

def initFileState : FileState :=
  ⟨.GPS, 0, "", Rotary3d.identityMatrix, Vector3d.zero, Vector3d.zero⟩

/-- State that survives across input files: the configured/resolved
satellite identifier, the three per-satellite maps, and the number of
warnings logged so far. -/
structure Accum where
  identifier : String
  orbits : SatMap OrbitEpoch
  clocks : SatMap MiscValueEpoch
  covs : SatMap Covariance3dEpoch
  warnings : ℕ
deriving DecidableEq

/-- Handler of a `+` satellite-list line (source lines 108–113). -/
def stepSatList (a : Accum) (count : ℤ) (firstId : String) : Accum :=
  if a.identifier = "" ∧ 0 < count then { a with identifier := firstId } else a

/-- Handler of the first `%c` line (source lines 115–123); an unrecognized
tag logs a warning and leaves `timeSystem` unchanged. -/
def stepTimeSys (a : Accum) (fs : FileState) (tag : String) : Accum × FileState :=
  if tag = "GPS" then (a, { fs with timeSystem := .GPS })
  else if tag = "UTC" then (a, { fs with timeSystem := .UTC })
  else if tag = "TAI" then (a, { fs with timeSystem := .TAI })
  else ({ a with warnings := a.warnings + 1 }, fs)

/-- Conversion of the calendar time to the canonical (GPS) time scale
according to the declared time system (source lines 135–139). -/
def resolveTime (env : Env) (ts : TimeSystem) (t : ℚ) : ℚ :=
  match ts with
  | .GPS => t
  | .UTC => env.timeUTC2GPS t
  | .TAI => t - env.deltaTaiGps

/-- Handler of a `* ` epoch-header line (source lines 127–150): resolve
the time, recompute the center-of-mass correction from the degree-1
coefficients, and refresh rotation and angular velocity when an
earth-rotation model is configured. -/
def stepEpochHeader (env : Env) (fs : FileState) (cal : Calendar) : FileState :=
  let t := resolveTime env fs.timeSystem (env.date2time cal)
  let h := env.sphericalHarmonics t
  let corr := Vector3d.smul (env.sqrt3 * h.R) ⟨h.c11, h.s11, h.c10⟩
  match env.earthRotation with
  | some er =>
    { fs with time := t, cm2ceCorrection := corr,
              rotation := (er.rotaryMatrix t).inverse, omega := er.rotaryAxis t }
  | none => { fs with time := t, cm2ceCorrection := corr }

/-- Handler of a `P` position line (source lines 154–176). -/
def stepPosition (a : Accum) (fs : FileState) (id : String) (x y z c : ℚ) :
    Accum × FileState :=
  let pos := Vector3d.smul 1000 ⟨x, y, z⟩
  let a1 :=
    if pos.rNonzero then
      { a with orbits :=
          a.orbits.push id ⟨fs.time, fs.rotation.rotate (pos.sub fs.cm2ceCorrection), none⟩ }
    else a
  let a2 :=
    if c < 999999 then
      { a1 with clocks := a1.clocks.push id ⟨fs.time, (1 / 1000000) * c⟩ }
    else a1
  (a2, { fs with satId := id })

/-- Reconstruction of the covariance tensor from the raw fields of an
`EP` line (source line 191): millimetre half-widths on the diagonal,
correlation coefficients in units of `1e-7` off the diagonal. -/
def covFromSp3 (xx yy zz xy xz yz : ℚ) : Tensor3d :=
  ⟨((1 / 1000) * xx) ^ 2, ((1 / 1000) * yy) ^ 2, ((1 / 1000) * zz) ^ 2,
   (1 / 10000000000000) * xy * xx * yy,
   (1 / 10000000000000) * xz * xx * zz,
   (1 / 10000000000000) * yz * yy * zz⟩

/-- Handler of an `EP` covariance line (source lines 180–194); note that
it carries no satellite identifier of its own and files the epoch under
the current `satId`. -/
def stepCovariance (a : Accum) (fs : FileState) (xx yy zz xy xz yz : ℚ) : Accum :=
  let ep : Covariance3dEpoch :=
    ⟨fs.time, Tensor3d.rotateBy fs.rotation (covFromSp3 xx yy zz xy xz yz)⟩
  { a with covs := a.covs.push fs.satId ep }

/-- Handler of a `V` velocity line (source lines 198–207).  `none` models
the undefined behaviour of `orbits[satId].back()` on an empty arc. -/
def stepVelocity (a : Accum) (fs : FileState) (id : String) (x y z : ℚ) :
    Option (Accum × FileState) :=
  let fs' := { fs with satId := id }
  let vel := Vector3d.smul (1 / 10) ⟨x, y, z⟩
  if vel.rNonzero then
    match (a.orbits.get id).getLast? with
    | none => none
    | some last =>
      let v := (fs.rotation.rotate vel).add (crossProduct fs.omega last.position)
      let newLast : OrbitEpoch := { last with velocity := some v }
      some ({ a with orbits := a.orbits.setArc id (setLast (a.orbits.get id) newLast) }, fs')
  else
    some (a, fs')

/-- Outcome of scanning one file. -/
inductive RunResult
  | done (a : Accum)
  | decodeFail (a : Accum)
  | ub (a : Accum)
deriving DecidableEq

/-- The per-file line loop (source lines 98–213).  A `%c` line consumes
and discards the following line; a `bad` line raises the parse fault; an
`EOF` line stops the scan. -/
def runLines (env : Env) (a : Accum) (fs : FileState) : List Line → RunResult
  | [] => .done a
  | .headerMeta :: rest => runLines env a fs rest
  | .other :: rest => runLines env a fs rest
  | .bad :: _ => .decodeFail a
  | .eofLine :: _ => .done a
  | .satList count firstId :: rest => runLines env (stepSatList a count firstId) fs rest
  | .timeSys tag :: [] => .done (stepTimeSys a fs tag).1
  | .timeSys tag :: _ :: rest =>
    runLines env (stepTimeSys a fs tag).1 (stepTimeSys a fs tag).2 rest
  | .epochHeader cal :: rest => runLines env a (stepEpochHeader env fs cal) rest
  | .position id x y z c :: rest =>
    runLines env (stepPosition a fs id x y z c).1 (stepPosition a fs id x y z c).2 rest
  | .covarLine xx yy zz xy xz yz :: rest =>
    runLines env (stepCovariance a fs xx yy zz xy xz yz) fs rest
  | .velocity id x y z :: rest =>
    match stepVelocity a fs id x y z with
    | none => .ub a
    | some p => runLines env p.1 p.2 rest

/-- The loop over input files (source lines 84–220): a parse fault logs a
warning and `break`s out of the file loop, so later files are never
scanned. -/
def runFiles (env : Env) (a : Accum) : List (List Line) → Accum
  | [] => a
  | f :: rest =>
    match runLines env a initFileState f with
    | .done a' => runFiles env a' rest
    | .decodeFail a' => { a' with warnings := a'.warnings + 1 }
    | .ub a' => a'

/-- An output path: either the configured file name itself or the result
of `FileName::appendBaseName` with the given suffix. -/
inductive OutPath
  | plain (p : String)
  | appendedBaseName (p : String) (suffix : String)
deriving DecidableEq

/-- Observable output steps of the write phase (source lines 226–272);
each write records the destination path and the arc handed to
`InstrumentFile::write`. -/
inductive Action
  | writeOrbit (f : OutPath) (arc : List OrbitEpoch)
  | writeClock (f : OutPath) (arc : List MiscValueEpoch)
  | writeCov (f : OutPath) (arc : List Covariance3dEpoch)
  | printStatistics
  | warnNoData (id : String)
deriving DecidableEq

/-- The three configured output file names; `""` models an unset optional
file name. -/
structure WriteConfig where
  fileNameOrbit : String
  fileNameClock : String
  fileNameCov : String
deriving DecidableEq

/-- Wildcard-mode writes of one artifact kind: one write per map entry
with a non-empty arc, to the base name suffixed with `"." ++ id`. -/
def wildcardWrites {ε : Type} (mk : OutPath → List ε → Action) (path : String)
    (m : SatMap ε) : List Action :=
  if path = "" then []
  else m.filterMap fun e =>
    if e.2.isEmpty then none
    else some (mk (.appendedBaseName path ("." ++ e.1)) e.2)

/-- The write phase (source lines 226–272). -/
def writeActions (cfg : WriteConfig) (a : Accum) : List Action :=
  if a.identifier = "<all>" then
    wildcardWrites .writeOrbit cfg.fileNameOrbit a.orbits ++
      wildcardWrites .writeClock cfg.fileNameClock a.clocks ++
      wildcardWrites .writeCov cfg.fileNameCov a.covs
  else
    (if (a.orbits.get a.identifier).isEmpty then [.warnNoData a.identifier] else []) ++
    (if cfg.fileNameOrbit ≠ "" ∧ ¬(a.orbits.get a.identifier).isEmpty then
       [.writeOrbit (.plain cfg.fileNameOrbit) (a.orbits.get a.identifier),
        .printStatistics] else []) ++
    (if cfg.fileNameClock ≠ "" ∧ ¬(a.clocks.get a.identifier).isEmpty then
       [.writeClock (.plain cfg.fileNameClock) (a.clocks.get a.identifier)] else []) ++
    (if cfg.fileNameCov ≠ "" ∧ ¬(a.covs.get a.identifier).isEmpty then
       [.writeCov (.plain cfg.fileNameCov) (a.covs.get a.identifier)] else [])

/-- The whole program after configuration: scan all files, then write. -/
def sp3Format2Orbit (env : Env) (cfg : WriteConfig) (identifier0 : String)
    (files : List (List Line)) : Accum × List Action :=
  let a := runFiles env ⟨identifier0, [], [], [], 0⟩ files
  (a, writeActions cfg a)

/-- The spec's center-of-mass correction formula,
`sqrt(3) · R · (c11, s11, c10)` at the given time. -/
def comCorrection (env : Env) (t : ℚ) : Vector3d :=
  Vector3d.smul (env.sqrt3 * (env.sphericalHarmonics t).R)
    ⟨(env.sphericalHarmonics t).c11, (env.sphericalHarmonics t).s11,
     (env.sphericalHarmonics t).c10⟩

/-- The canonical time a fresh epoch header resolves to. -/
def epochTime (env : Env) (fs : FileState) (cal : Calendar) : ℚ :=
  resolveTime env fs.timeSystem (env.date2time cal)

/-! ### Helper lemmas -/

theorem Vector3d.smul_eq_zero_iff (c : ℚ) (hc : c ≠ 0) (v : Vector3d) :
    Vector3d.smul c v = Vector3d.zero ↔ v = Vector3d.zero := by
  obtain ⟨x, y, z⟩ := v
  simp [Vector3d.smul, Vector3d.zero, mul_eq_zero, hc]

theorem SatMap.get_push_self {ε : Type} (m : SatMap ε) (k : String) (e : ε) :
    (m.push k e).get k = m.get k ++ [e] := by
  induction m with
  | nil => simp [SatMap.push, SatMap.get]
  | cons hd tl ih =>
    obtain ⟨k', v⟩ := hd
    by_cases hk : k' = k <;> simp [SatMap.push, SatMap.get, hk, ih]

theorem SatMap.get_push_ne {ε : Type} (m : SatMap ε) (k k' : String) (e : ε)
    (h : k ≠ k') : (m.push k e).get k' = m.get k' := by
  induction m with
  | nil => simp [SatMap.push, SatMap.get, h]
  | cons hd tl ih =>
    obtain ⟨k0, v⟩ := hd
    by_cases hk : k0 = k
    · subst hk
      simp [SatMap.push, SatMap.get, h]
    · simp [SatMap.push, SatMap.get, hk, ih]

theorem stepEpochHeader_time (env : Env) (fs : FileState) (cal : Calendar) :
    (stepEpochHeader env fs cal).time = epochTime env fs cal := by
  unfold stepEpochHeader epochTime
  cases env.earthRotation <;> simp

theorem stepEpochHeader_cm2ce (env : Env) (fs : FileState) (cal : Calendar) :
    (stepEpochHeader env fs cal).cm2ceCorrection = comCorrection env (epochTime env fs cal) := by
  unfold stepEpochHeader comCorrection epochTime
  cases env.earthRotation <;> simp

theorem stepEpochHeader_satId (env : Env) (fs : FileState) (cal : Calendar) :
    (stepEpochHeader env fs cal).satId = fs.satId := by
  unfold stepEpochHeader
  cases env.earthRotation <;> simp

theorem stepEpochHeader_timeSystem (env : Env) (fs : FileState) (cal : Calendar) :
    (stepEpochHeader env fs cal).timeSystem = fs.timeSystem := by
  unfold stepEpochHeader
  cases env.earthRotation <;> simp

theorem stepPosition_orbits_of_nonzero (a : Accum) (fs : FileState) (id : String)
    (x y z c : ℚ) (h : (⟨x, y, z⟩ : Vector3d).rNonzero) :
    (stepPosition a fs id x y z c).1.orbits =
      a.orbits.push id
        ⟨fs.time,
         fs.rotation.rotate ((Vector3d.smul 1000 ⟨x, y, z⟩).sub fs.cm2ceCorrection),
         none⟩ := by
  have hg : (Vector3d.smul 1000 ⟨x, y, z⟩).rNonzero := by
    simpa [Vector3d.rNonzero, Vector3d.smul_eq_zero_iff 1000 (by norm_num)] using h
  unfold stepPosition
  simp only [if_pos hg]
  split <;> simp

theorem stepPosition_orbits_of_zero (a : Accum) (fs : FileState) (id : String)
    (x y z c : ℚ) (h : ¬(⟨x, y, z⟩ : Vector3d).rNonzero) :
    (stepPosition a fs id x y z c).1.orbits = a.orbits := by
  have hg : ¬(Vector3d.smul 1000 ⟨x, y, z⟩).rNonzero := by
    simpa [Vector3d.rNonzero, Vector3d.smul_eq_zero_iff 1000 (by norm_num)] using h
  unfold stepPosition
  simp only [if_neg hg]
  split <;> simp

theorem stepPosition_clocks_of_lt (a : Accum) (fs : FileState) (id : String)
    (x y z c : ℚ) (h : c < 999999) :
    (stepPosition a fs id x y z c).1.clocks =
      a.clocks.push id ⟨fs.time, (1 / 1000000) * c⟩ := by
  unfold stepPosition
  simp only [if_pos h]
  split <;> simp

theorem stepPosition_clocks_of_ge (a : Accum) (fs : FileState) (id : String)
    (x y z c : ℚ) (h : ¬c < 999999) :
    (stepPosition a fs id x y z c).1.clocks = a.clocks := by
  unfold stepPosition
  simp only [if_neg h]
  split <;> simp

theorem stepPosition_satId (a : Accum) (fs : FileState) (id : String) (x y z c : ℚ) :
    (stepPosition a fs id x y z c).2 = { fs with satId := id } := by
  unfold stepPosition
  simp

theorem Rotary3d.identity_rotate (v : Vector3d) :
    Rotary3d.identityMatrix.rotate v = v := by
  obtain ⟨x, y, z⟩ := v
  simp [Rotary3d.identityMatrix, Rotary3d.rotate, Vector3d.dot]

theorem Vector3d.sub_zero_vec (v : Vector3d) : v.sub Vector3d.zero = v := by
  obtain ⟨x, y, z⟩ := v
  simp [Vector3d.sub, Vector3d.zero]

/-! ### Concrete fixtures used by witnesses and counterexamples -/

/-- A concrete environment: zero gravity-field coefficients (so the
center-of-mass correction vanishes), no earth-rotation model, a
leap-second table that is a shift by 18 s, and `TAI − GPS = 19 s`. -/
def envGps : Env :=
  ⟨0, 19, fun cal => cal.sec, fun t => t + 18, fun _ => ⟨0, 0, 0, 0, 0⟩, none⟩

/-- A concrete environment whose degree-1 coefficients are nonzero. -/
def envGrav : Env :=
  ⟨2, 19, fun cal => cal.sec, fun t => t + 18, fun _ => ⟨1, 5, 7, 11, 10⟩, none⟩

def accum0 : Accum := ⟨"", [], [], [], 0⟩

def calW : Calendar := ⟨2020, 1, 1, 0, 0, 100⟩

/-! ### Claims -/

/-- Claim C1: for every position line whose raw 3-vector is nonzero,
processed after an epoch header, the appended orbit epoch's position is
`rotation · (1000·raw_km_vector − com_correction)`, where the correction
is `sqrt(3) · R · (c11, s11, c10)` recomputed from the degree-1
spherical-harmonic coefficients at the epoch header's resolved time; with
identity rotation and zero correction the stored position is exactly
`1000·raw`. -/
theorem c1_position_formula (env : Env) (a : Accum) (fs : FileState) (cal : Calendar)
    (id : String) (x y z c : ℚ) (hnz : (⟨x, y, z⟩ : Vector3d).rNonzero) :
    ((stepPosition a (stepEpochHeader env fs cal) id x y z c).1.orbits.get id =
        a.orbits.get id ++
          [⟨epochTime env fs cal,
            (stepEpochHeader env fs cal).rotation.rotate
              ((Vector3d.smul 1000 ⟨x, y, z⟩).sub
                (comCorrection env (epochTime env fs cal))),
            none⟩]) ∧
      ((stepEpochHeader env fs cal).rotation = Rotary3d.identityMatrix →
        comCorrection env (epochTime env fs cal) = Vector3d.zero →
        (stepPosition a (stepEpochHeader env fs cal) id x y z c).1.orbits.get id =
          a.orbits.get id ++
            [⟨epochTime env fs cal, Vector3d.smul 1000 ⟨x, y, z⟩, none⟩]) := by
  have h1 := stepPosition_orbits_of_nonzero a (stepEpochHeader env fs cal) id x y z c hnz
  rw [stepEpochHeader_time, stepEpochHeader_cm2ce] at h1
  constructor
  · rw [h1, SatMap.get_push_self]
  · intro hrot hcorr
    rw [h1, hrot, hcorr, SatMap.get_push_self, Vector3d.sub_zero_vec,
      Rotary3d.identity_rotate]

/-- Witness for C1 at a concrete input. -/
theorem c1_position_formula_witness :
    ((⟨1, 2, 3⟩ : Vector3d).rNonzero) ∧
      ((stepPosition accum0 (stepEpochHeader envGps initFileState calW) "L01" 1 2 3 0).1.orbits.get "L01" =
          accum0.orbits.get "L01" ++
            [⟨epochTime envGps initFileState calW,
              (stepEpochHeader envGps initFileState calW).rotation.rotate
                ((Vector3d.smul 1000 ⟨1, 2, 3⟩).sub
                  (comCorrection envGps (epochTime envGps initFileState calW))),
              none⟩]) := by
  have hnz : (⟨1, 2, 3⟩ : Vector3d).rNonzero := by
    simp [Vector3d.rNonzero, Vector3d.zero]
  exact ⟨hnz, (c1_position_formula envGps accum0 initFileState calW "L01" 1 2 3 0 hnz).1⟩

/-- Claim C2: on a position line the position epoch is appended iff the
raw 3-vector is nonzero, and — independently — a clock epoch of value
`1e-6 · c` is appended iff `c < 999999`; a clock field at or above
`999999` never produces a clock epoch. -/
theorem c2_clock_independence (a : Accum) (fs : FileState) (id : String) (x y z c : ℚ) :
    ((⟨x, y, z⟩ : Vector3d).rNonzero →
      (stepPosition a fs id x y z c).1.orbits.get id =
        a.orbits.get id ++
          [⟨fs.time,
            fs.rotation.rotate ((Vector3d.smul 1000 ⟨x, y, z⟩).sub fs.cm2ceCorrection),
            none⟩]) ∧
      (¬(⟨x, y, z⟩ : Vector3d).rNonzero →
        (stepPosition a fs id x y z c).1.orbits = a.orbits) ∧
      (c < 999999 →
        (stepPosition a fs id x y z c).1.clocks.get id =
          a.clocks.get id ++ [⟨fs.time, (1 / 1000000) * c⟩]) ∧
      (999999 ≤ c → (stepPosition a fs id x y z c).1.clocks = a.clocks) := by
  refine ⟨fun h => ?_, fun h => ?_, fun h => ?_, fun h => ?_⟩
  · rw [stepPosition_orbits_of_nonzero a fs id x y z c h, SatMap.get_push_self]
  · exact stepPosition_orbits_of_zero a fs id x y z c h
  · rw [stepPosition_clocks_of_lt a fs id x y z c h, SatMap.get_push_self]
  · exact stepPosition_clocks_of_ge a fs id x y z c (not_lt.mpr h)

/-- Witness for C2: a zero position vector together with a small clock
field appends a clock epoch but no position epoch; a sentinel clock field
appends nothing. -/
theorem c2_clock_independence_witness :
    ((stepPosition accum0 initFileState "L01" 0 0 0 5).1.orbits = accum0.orbits) ∧
      ((stepPosition accum0 initFileState "L01" 0 0 0 5).1.clocks.get "L01" =
        accum0.clocks.get "L01" ++ [⟨0, (1 / 1000000) * 5⟩]) ∧
      ((stepPosition accum0 initFileState "L01" 1 0 0 999999).1.clocks = accum0.clocks) := by
  refine ⟨?_, ?_, ?_⟩
  · exact (c2_clock_independence accum0 initFileState "L01" 0 0 0 5).2.1
      (by simp [Vector3d.rNonzero, Vector3d.zero])
  · exact (c2_clock_independence accum0 initFileState "L01" 0 0 0 5).2.2.1 (by norm_num)
  · exact (c2_clock_independence accum0 initFileState "L01" 1 0 0 999999).2.2.2 (by norm_num)

/-- The orbit epoch `e` with its velocity field set to `v` (the in-place
`back().velocity = v` mutation). -/
def withVelocity (e : OrbitEpoch) (v : Vector3d) : OrbitEpoch :=
  { e with velocity := some v }

/-- The accumulator with satellite `id`'s orbit arc replaced by `arc`. -/
def withOrbitArc (a : Accum) (id : String) (arc : List OrbitEpoch) : Accum :=
  { a with orbits := a.orbits.setArc id arc }

/-- The file state with the current satellite identifier replaced. -/
def withSatId (fs : FileState) (id : String) : FileState :=
  { fs with satId := id }

theorem stepVelocity_eq (a : Accum) (fs : FileState) (id : String) (x y z : ℚ) :
    stepVelocity a fs id x y z =
      (if (Vector3d.smul (1 / 10) ⟨x, y, z⟩).rNonzero then
        match (a.orbits.get id).getLast? with
        | none => none
        | some last =>
          some (withOrbitArc a id
                  (setLast (a.orbits.get id)
                    (withVelocity last
                      ((fs.rotation.rotate (Vector3d.smul (1 / 10) ⟨x, y, z⟩)).add
                        (crossProduct fs.omega last.position)))),
                withSatId fs id)
      else some (a, withSatId fs id)) := rfl

theorem smul_rNonzero_iff (c : ℚ) (hc : c ≠ 0) (v : Vector3d) :
    (Vector3d.smul c v).rNonzero ↔ v.rNonzero :=
  not_congr (Vector3d.smul_eq_zero_iff c hc v)

/-- Claim C3: on a velocity line, a zero raw vector leaves the last
position epoch untouched (velocity stays unset); a nonzero one rewrites
the last appended position epoch of that satellite in place, setting its
velocity to `rotation·(0.1·raw) + ω × storedPosition` where
`storedPosition` is the already rotated stored position. -/
theorem c3_velocity_backfill (a : Accum) (fs : FileState) (id : String) (x y z : ℚ)
    (pre : List OrbitEpoch) (last : OrbitEpoch)
    (hget : a.orbits.get id = pre ++ [last]) :
    (¬(⟨x, y, z⟩ : Vector3d).rNonzero →
      stepVelocity a fs id x y z = some (a, withSatId fs id)) ∧
      ((⟨x, y, z⟩ : Vector3d).rNonzero →
        stepVelocity a fs id x y z =
          some (withOrbitArc a id
                  (pre ++
                    [withVelocity last
                      ((fs.rotation.rotate (Vector3d.smul (1 / 10) ⟨x, y, z⟩)).add
                        (crossProduct fs.omega last.position))]),
                withSatId fs id)) := by
  constructor
  · intro h
    rw [stepVelocity_eq, if_neg ((smul_rNonzero_iff (1 / 10) (by norm_num) _).not.mpr h)]
  · intro h
    rw [stepVelocity_eq, if_pos ((smul_rNonzero_iff (1 / 10) (by norm_num) _).mpr h), hget,
      List.getLast?_concat]
    simp [setLast]

/-- Witness for C3 at a concrete input: one stored position epoch, then a
nonzero velocity line. -/
theorem c3_velocity_backfill_witness :
    stepVelocity ⟨"", [("L01", [⟨7, ⟨1, 2, 3⟩, none⟩])], [], [], 0⟩ initFileState "L01" 10 0 0 =
      some (withOrbitArc ⟨"", [("L01", [⟨7, ⟨1, 2, 3⟩, none⟩])], [], [], 0⟩ "L01"
              [withVelocity ⟨7, ⟨1, 2, 3⟩, none⟩
                ((initFileState.rotation.rotate (Vector3d.smul (1 / 10) ⟨10, 0, 0⟩)).add
                  (crossProduct initFileState.omega ⟨1, 2, 3⟩))],
            withSatId initFileState "L01") := by
  exact (c3_velocity_backfill ⟨"", [("L01", [⟨7, ⟨1, 2, 3⟩, none⟩])], [], [], 0⟩
      initFileState "L01" 10 0 0 [] ⟨7, ⟨1, 2, 3⟩, none⟩ (by simp [SatMap.get])).2
      (by simp [Vector3d.rNonzero, Vector3d.zero])

/-- Claim C4: the velocity handler reads the last element of the
satellite's position sequence with no emptiness guard; when at least one
position epoch exists the access is in bounds (the undefined-behaviour
branch is unreachable), and for a nonzero velocity line whose satellite
has no appended position epoch the access hits an empty sequence. -/
theorem c4_back_access (a : Accum) (fs : FileState) (id : String) (x y z : ℚ) :
    (a.orbits.get id ≠ [] → stepVelocity a fs id x y z ≠ none) ∧
      (a.orbits.get id = [] → (⟨x, y, z⟩ : Vector3d).rNonzero →
        stepVelocity a fs id x y z = none) := by
  constructor
  · intro hne
    obtain ⟨last, hl⟩ : ∃ last, (a.orbits.get id).getLast? = some last := by
      cases hl : (a.orbits.get id).getLast? with
      | none => exact absurd (List.getLast?_eq_none_iff.mp hl) hne
      | some last => exact ⟨last, rfl⟩
    rw [stepVelocity_eq]
    by_cases hv : (Vector3d.smul (1 / 10) ⟨x, y, z⟩).rNonzero
    · rw [if_pos hv, hl]
      simp
    · rw [if_neg hv]
      simp
  · intro hempty h
    rw [stepVelocity_eq, if_pos ((smul_rNonzero_iff (1 / 10) (by norm_num) _).mpr h), hempty]
    rfl

/-- Witness for C4: in-bounds access with one stored epoch, undefined
access with none. -/
theorem c4_back_access_witness :
    (stepVelocity ⟨"", [("L01", [⟨7, ⟨1, 2, 3⟩, none⟩])], [], [], 0⟩ initFileState "L01" 10 0 0 ≠
        none) ∧
      stepVelocity accum0 initFileState "L01" 10 0 0 = none := by
  constructor
  · exact (c4_back_access ⟨"", [("L01", [⟨7, ⟨1, 2, 3⟩, none⟩])], [], [], 0⟩
      initFileState "L01" 10 0 0).1 (by simp [SatMap.get])
  · exact (c4_back_access accum0 initFileState "L01" 10 0 0).2 (by simp [accum0, SatMap.get])
      (by simp [Vector3d.rNonzero, Vector3d.zero])

/-- Claim C10: a covariance line carries no satellite identifier of its
own: the epoch is appended under the current `satId`, which is exactly
the identifier set by the most recent position or velocity line (both set
it even for zero-magnitude vectors), is left unchanged by every other
line handler, and is the empty string at the start of each file. -/
theorem c10_covariance_satid (env : Env) (a : Accum) (fs : FileState) (cal : Calendar)
    (id : String) (x y z c xx yy zz xy xz yz : ℚ) (tag : String) :
    ((stepCovariance a fs xx yy zz xy xz yz).covs.get fs.satId =
        a.covs.get fs.satId ++
          [⟨fs.time, Tensor3d.rotateBy fs.rotation (covFromSp3 xx yy zz xy xz yz)⟩]) ∧
      ((stepPosition a fs id x y z c).2.satId = id) ∧
      (∀ p, stepVelocity a fs id x y z = some p → p.2.satId = id) ∧
      ((stepEpochHeader env fs cal).satId = fs.satId) ∧
      ((stepTimeSys a fs tag).2.satId = fs.satId) ∧
      (initFileState.satId = "") := by
  refine ⟨?_, ?_, ?_, stepEpochHeader_satId env fs cal, ?_, rfl⟩
  · unfold stepCovariance
    simp [SatMap.get_push_self]
  · rw [stepPosition_satId]
  · intro p hp
    rw [stepVelocity_eq] at hp
    by_cases hv : (Vector3d.smul (1 / 10) ⟨x, y, z⟩).rNonzero
    · rw [if_pos hv] at hp
      cases hl : (a.orbits.get id).getLast? with
      | none =>
        rw [hl] at hp
        exact absurd hp (by simp)
      | some last =>
        rw [hl] at hp
        rw [← Option.some.injEq _ _ |>.mp hp]
        rfl
    · rw [if_neg hv] at hp
      rw [← Option.some.injEq _ _ |>.mp hp]
      rfl
  · unfold stepTimeSys
    split_ifs <;> rfl

/-- Witness for C10 at a concrete input: a covariance line processed
before any position or velocity line is filed under the empty-string
identifier. -/
theorem c10_covariance_satid_witness :
    (stepCovariance accum0 initFileState 1 1 1 0 0 0).covs.get "" =
      accum0.covs.get "" ++
        [⟨0, Tensor3d.rotateBy initFileState.rotation (covFromSp3 1 1 1 0 0 0)⟩] := by
  exact (c10_covariance_satid envGps accum0 initFileState calW "L01" 0 0 0 0 1 1 1 0 0 0
    "GPS").1

/-- The unit-diagonal correlation tensor decoded from the raw off-diagonal
fields of an `EP` line (stored in units of `1e-7`). -/
def corrTensor (xy xz yz : ℚ) : Tensor3d :=
  ⟨1, 1, 1, (1 / 10000000) * xy, (1 / 10000000) * xz, (1 / 10000000) * yz⟩

/-- Congruence: the reconstructed covariance is the decoded correlation
tensor conjugated by the diagonal of metre standard deviations. -/
theorem covFromSp3_quadForm (xx yy zz xy xz yz : ℚ) (v : Vector3d) :
    (covFromSp3 xx yy zz xy xz yz).quadForm v =
      (corrTensor xy xz yz).quadForm
        ⟨(1 / 1000) * xx * v.x, (1 / 1000) * yy * v.y, (1 / 1000) * zz * v.z⟩ := by
  simp only [covFromSp3, corrTensor, Tensor3d.quadForm]
  ring

/-- Claim C5 (amended): the reconstructed covariance tensor yields a
symmetric matrix, its diagonal terms are exactly `(1e-3·halfwidth)²`, its
off-diagonal terms are `1e-13·corrRaw·halfwidth_i·halfwidth_j`, and it is
positive semi-definite whenever the unit-diagonal correlation tensor
decoded from the coefficients is positive semi-definite (the bounds
`corr ∈ [−1,1]` with positive half-widths alone do not suffice). -/
theorem c5_covariance_reconstruction (xx yy zz xy xz yz : ℚ)
    (hpsd : (corrTensor xy xz yz).PosSemidef) :
    ((covFromSp3 xx yy zz xy xz yz).toMatrix.transpose =
        (covFromSp3 xx yy zz xy xz yz).toMatrix) ∧
      ((covFromSp3 xx yy zz xy xz yz).xx = ((1 / 1000) * xx) ^ 2) ∧
      ((covFromSp3 xx yy zz xy xz yz).yy = ((1 / 1000) * yy) ^ 2) ∧
      ((covFromSp3 xx yy zz xy xz yz).zz = ((1 / 1000) * zz) ^ 2) ∧
      ((covFromSp3 xx yy zz xy xz yz).xy = (1 / 10000000000000) * xy * xx * yy) ∧
      ((covFromSp3 xx yy zz xy xz yz).xz = (1 / 10000000000000) * xz * xx * zz) ∧
      ((covFromSp3 xx yy zz xy xz yz).yz = (1 / 10000000000000) * yz * yy * zz) ∧
      (covFromSp3 xx yy zz xy xz yz).PosSemidef := by
  refine ⟨rfl, rfl, rfl, rfl, rfl, rfl, rfl, fun v => ?_⟩
  rw [covFromSp3_quadForm]
  exact hpsd _

/-- Witness for C5 (amended) at a concrete input with zero correlations. -/
theorem c5_covariance_reconstruction_witness :
    (corrTensor 0 0 0).PosSemidef ∧ (covFromSp3 2 3 4 0 0 0).PosSemidef := by
  have hpsd : (corrTensor 0 0 0).PosSemidef := by
    intro v
    simp only [corrTensor, Tensor3d.quadForm]
    nlinarith [sq_nonneg v.x, sq_nonneg v.y, sq_nonneg v.z]
  exact ⟨hpsd, (c5_covariance_reconstruction 2 3 4 0 0 0 hpsd).2.2.2.2.2.2.2⟩

/-- Counterexample to C5 as stated: all three decoded correlations equal
to −1 (raw `−1e7`, inside `[−1, 1]`) with positive half-widths give a
reconstructed matrix whose quadratic form at `(1,1,1)` is negative, so it
is not positive semi-definite. -/
theorem c5_psd_counterexample :
    ((0 : ℚ) < 1 ∧ (-1 : ℚ) ≤ (1 / 10000000) * (-10000000) ∧
        (1 / 10000000) * (-10000000 : ℚ) ≤ 1) ∧
      ¬(covFromSp3 1 1 1 (-10000000) (-10000000) (-10000000)).PosSemidef := by
  refine ⟨⟨by norm_num, by norm_num, by norm_num⟩, fun h => ?_⟩
  have h1 := h ⟨1, 1, 1⟩
  norm_num [covFromSp3, Tensor3d.quadForm] at h1

/-- Claim C6 (amended): a `GPS`/`UTC`/`TAI` declaration sets the time
system; an unrecognized tag logs a warning and leaves the time system
unchanged (GPS when no recognized declaration preceded, GPS being the
initial value); an epoch header resolves the calendar time as: GPS
unchanged, UTC through the leap-second conversion, TAI minus the fixed
`DELTA_TAI_GPS` constant. -/
theorem c6_time_system (env : Env) (a : Accum) (fs : FileState) (cal : Calendar) (t : ℚ) :
    (stepTimeSys a fs "GPS" = (a, { fs with timeSystem := .GPS })) ∧
      (stepTimeSys a fs "UTC" = (a, { fs with timeSystem := .UTC })) ∧
      (stepTimeSys a fs "TAI" = (a, { fs with timeSystem := .TAI })) ∧
      (∀ tag, tag ≠ "GPS" → tag ≠ "UTC" → tag ≠ "TAI" →
        stepTimeSys a fs tag = ({ a with warnings := a.warnings + 1 }, fs)) ∧
      ((stepEpochHeader env fs cal).time =
        resolveTime env fs.timeSystem (env.date2time cal)) ∧
      (resolveTime env .GPS t = t) ∧
      (resolveTime env .UTC t = env.timeUTC2GPS t) ∧
      (resolveTime env .TAI t = t - env.deltaTaiGps) := by
  refine ⟨by simp [stepTimeSys], by simp [stepTimeSys], by simp [stepTimeSys],
    fun tag h1 h2 h3 => by simp [stepTimeSys, h1, h2, h3],
    stepEpochHeader_time env fs cal, rfl, rfl, rfl⟩

/-- Witness for C6 (amended) at a concrete unknown tag. -/
theorem c6_time_system_witness :
    stepTimeSys accum0 initFileState "XYZ" =
      ({ accum0 with warnings := accum0.warnings + 1 }, initFileState) :=
  (c6_time_system envGps accum0 initFileState calW 0).2.2.2.1 "XYZ"
    (by simp) (by simp) (by simp)

/-- Counterexample to C6 as stated: after a recognized `UTC` declaration,
a later declaration with the unknown tag `XYZ` logs a warning
(`warnings = 1`) but is not treated as GPS — the following epoch is still
resolved through the UTC conversion (`100 + 18 = 118` with this
environment's leap-second table), not used unchanged (`100`) as the GPS
rule would. -/
theorem c6_unknown_tag_counterexample :
    runLines envGps accum0 initFileState
        [.timeSys "UTC", .other, .timeSys "XYZ", .other, .epochHeader calW,
         .position "L01" 1 0 0 1000000] =
      .done ⟨"", [("L01", [⟨118, ⟨1000, 0, 0⟩, none⟩])], [], [], 1⟩ ∧
      envGps.date2time calW = 100 ∧ (118 : ℚ) ≠ 100 := by
  refine ⟨?_, by norm_num [envGps, calW], by norm_num⟩
  simp [runLines, envGps, accum0, calW, initFileState, stepTimeSys, stepEpochHeader,
    stepPosition, resolveTime, Vector3d.smul, Vector3d.rNonzero, Vector3d.zero,
    SatMap.push, Rotary3d.rotate, Rotary3d.identityMatrix, Rotary3d.inverse, Vector3d.sub,
    Vector3d.dot]
  norm_num

/-- Claim C7: a numeric decode failure abandons the remaining scan of the
file on the spot (whatever follows the bad line is ignored), logs a
warning, skips every further input file, and the program proceeds with
everything accumulated before the fault. -/
theorem c7_fail_fast (env : Env) (a a' : Accum) (fs : FileState)
    (f : List Line) (rest : List (List Line)) (more : List Line)
    (h : runLines env a initFileState f = .decodeFail a') :
    (runLines env a fs (Line.bad :: more) = .decodeFail a) ∧
      (runFiles env a (f :: rest) = { a' with warnings := a'.warnings + 1 }) := by
  refine ⟨rfl, ?_⟩
  unfold runFiles
  rw [h]

/-- Witness for C7: a file consisting of a single bad line stops the run;
the following file in the list is never scanned. -/
theorem c7_fail_fast_witness :
    (runLines envGps accum0 initFileState [Line.bad] = .decodeFail accum0) ∧
      (runFiles envGps accum0 [[Line.bad], [.position "L02" 1 1 1 0]] =
        { accum0 with warnings := accum0.warnings + 1 }) :=
  c7_fail_fast envGps accum0 accum0 initFileState [Line.bad]
    [[.position "L02" 1 1 1 0]] [] rfl

/-- Well-formedness of a satellite map: keys are pairwise distinct (true
of every map the parser builds, since `push`/`setArc` never duplicate a
key). -/
def SatMap.WF {ε : Type} (m : SatMap ε) : Prop := (m.map Prod.fst).Nodup

theorem string_append_left_cancel {a b c : String} (h : a ++ b = a ++ c) : b = c := by
  have h2 := congrArg String.data h
  simp only [String.data_append] at h2
  exact String.ext (List.append_cancel_left h2)

theorem SatMap.get_ne_nil {ε : Type} (m : SatMap ε) (hwf : m.WF) (id : String) :
    m.get id ≠ [] ↔ ∃ e ∈ m, e.1 = id ∧ e.2 ≠ [] := by
  induction m with
  | nil => simp [SatMap.get]
  | cons hd tl ih =>
    obtain ⟨k, v⟩ := hd
    have hwf2 : k ∉ tl.map Prod.fst ∧ (tl.map Prod.fst).Nodup := by
      simpa [SatMap.WF, List.nodup_cons] using hwf
    by_cases hk : k = id
    · subst hk
      simp only [SatMap.get, if_pos rfl]
      constructor
      · intro hv
        exact ⟨(k, v), List.mem_cons_self _ _, rfl, hv⟩
      · rintro ⟨e, he, h1, h2⟩
        rcases List.mem_cons.mp he with rfl | he'
        · exact h2
        · exact absurd (h1 ▸ List.mem_map_of_mem Prod.fst he') hwf2.1
    · simp only [SatMap.get, if_neg hk]
      rw [ih hwf2.2]
      constructor
      · rintro ⟨e, he, h1, h2⟩
        exact ⟨e, List.mem_cons_of_mem _ he, h1, h2⟩
      · rintro ⟨e, he, h1, h2⟩
        rcases List.mem_cons.mp he with rfl | he'
        · exact absurd h1 hk
        · exact ⟨e, he', h1, h2⟩

theorem SatMap.get_of_mem {ε : Type} (m : SatMap ε) (hwf : m.WF) (e : String × List ε)
    (he : e ∈ m) : m.get e.1 = e.2 := by
  induction m with
  | nil => cases he
  | cons hd tl ih =>
    obtain ⟨k, v⟩ := hd
    have hwf2 : k ∉ tl.map Prod.fst ∧ (tl.map Prod.fst).Nodup := by
      simpa [SatMap.WF, List.nodup_cons] using hwf
    rcases List.mem_cons.mp he with rfl | he'
    · simp [SatMap.get]
    · have hk : k ≠ e.1 := fun h => hwf2.1 (h ▸ List.mem_map_of_mem Prod.fst he')
      simp only [SatMap.get, if_neg hk]
      exact ih hwf2.2 he'

theorem mem_wildcardWrites {ε : Type} (mk : OutPath → List ε → Action) (path : String)
    (m : SatMap ε) (act : Action) :
    act ∈ wildcardWrites mk path m ↔
      path ≠ "" ∧ ∃ e ∈ m, e.2 ≠ [] ∧ act = mk (.appendedBaseName path ("." ++ e.1)) e.2 := by
  unfold wildcardWrites
  split_ifs with hp
  · simp [hp]
  · rw [List.mem_filterMap]
    simp only [ne_eq, hp, not_false_iff, true_and]
    constructor
    · rintro ⟨e, he, hf⟩
      by_cases hne : e.2.isEmpty
      · rw [if_pos hne] at hf
        cases hf
      · rw [if_neg hne] at hf
        exact ⟨e, he, by simpa [List.isEmpty_iff] using hne,
          ((Option.some.injEq _ _).mp hf).symm⟩
    · rintro ⟨e, he, hne, rfl⟩
      exact ⟨e, he, by rw [if_neg (by simpa [List.isEmpty_iff] using hne)]⟩

theorem mem_wildcardWrites_suffix {ε : Type} (mk : OutPath → List ε → Action) (path : String)
    (m : SatMap ε) (hwf : m.WF) (id : String)
    (hinj : ∀ x d y d', mk x d = mk y d' → x = y) :
    mk (.appendedBaseName path ("." ++ id)) (m.get id) ∈ wildcardWrites mk path m ↔
      path ≠ "" ∧ m.get id ≠ [] := by
  rw [mem_wildcardWrites]
  constructor
  · rintro ⟨hp, e, he, hne, heq⟩
    refine ⟨hp, ?_⟩
    have h1 : (OutPath.appendedBaseName path ("." ++ id)) =
        .appendedBaseName path ("." ++ e.1) := hinj _ _ _ _ heq
    have h2 : id = e.1 :=
      string_append_left_cancel ((OutPath.appendedBaseName.injEq _ _ _ _).mp h1).2
    exact (SatMap.get_ne_nil m hwf id).mpr ⟨e, he, h2.symm, hne⟩
  · rintro ⟨hp, hne⟩
    obtain ⟨e, he, h1, h2⟩ := (SatMap.get_ne_nil m hwf id).mp hne
    have h3 : m.get id = e.2 := by
      rw [← h1]
      exact SatMap.get_of_mem m hwf e he
    exact ⟨hp, e, he, h2, by rw [h1, h3]⟩

theorem not_mem_wildcardWrites {ε : Type} (mk : OutPath → List ε → Action) (path : String)
    (m : SatMap ε) (act : Action)
    (h : ∀ p s d, act ≠ mk (.appendedBaseName p s) d) :
    act ∉ wildcardWrites mk path m := by
  rw [mem_wildcardWrites]
  rintro ⟨_, e, _, _, heq⟩
  exact h _ _ _ heq

/-- Fixture: an accumulator in single-satellite mode holding orbit data
but no clock and no covariance data for the selected identifier. -/
def orbitsOnly : Accum := ⟨"L01", [("L01", [⟨7, ⟨1, 2, 3⟩, none⟩])], [], [], 0⟩

/-- Fixture: orbit and clock output files configured, covariance not. -/
def cfgOC : WriteConfig := ⟨"orb", "clk", ""⟩

/-- Claim C8 (amended): in single-identifier mode an empty configured
identifier resolves to the first satellite declared with nonzero count;
the "no data" warning is logged exactly when the selected identifier's
ORBIT sequence is empty (absence of clock or covariance records alone
logs no warning); each artifact is written iff its path is configured and
its own sequence is non-empty (so missing artifacts are skipped without
aborting); the statistics summary accompanies exactly a successful orbit
write; no suffixed path is ever used. -/
theorem c8_single_mode (cfg : WriteConfig) (a : Accum) (count : ℤ) (firstId : String)
    (hns : a.identifier ≠ "<all>") :
    (a.identifier = "" → 0 < count → (stepSatList a count firstId).identifier = firstId) ∧
      (Action.warnNoData a.identifier ∈ writeActions cfg a ↔
        a.orbits.get a.identifier = []) ∧
      (Action.writeOrbit (.plain cfg.fileNameOrbit) (a.orbits.get a.identifier) ∈
          writeActions cfg a ↔
        cfg.fileNameOrbit ≠ "" ∧ a.orbits.get a.identifier ≠ []) ∧
      (Action.printStatistics ∈ writeActions cfg a ↔
        cfg.fileNameOrbit ≠ "" ∧ a.orbits.get a.identifier ≠ []) ∧
      (Action.writeClock (.plain cfg.fileNameClock) (a.clocks.get a.identifier) ∈
          writeActions cfg a ↔
        cfg.fileNameClock ≠ "" ∧ a.clocks.get a.identifier ≠ []) ∧
      (Action.writeCov (.plain cfg.fileNameCov) (a.covs.get a.identifier) ∈
          writeActions cfg a ↔
        cfg.fileNameCov ≠ "" ∧ a.covs.get a.identifier ≠ []) ∧
      (∀ f arc, Action.writeOrbit f arc ∈ writeActions cfg a →
        f = .plain cfg.fileNameOrbit ∧ arc = a.orbits.get a.identifier) ∧
      (∀ f arc, Action.writeClock f arc ∈ writeActions cfg a →
        f = .plain cfg.fileNameClock ∧ arc = a.clocks.get a.identifier) ∧
      (∀ f arc, Action.writeCov f arc ∈ writeActions cfg a →
        f = .plain cfg.fileNameCov ∧ arc = a.covs.get a.identifier) := by
  refine ⟨fun h1 h2 => by simp [stepSatList, h1, h2], ?_, ?_, ?_, ?_, ?_, ?_, ?_, ?_⟩
  all_goals unfold writeActions
  all_goals rw [if_neg hns]
  · split_ifs <;> simp_all [List.isEmpty_iff]
  · split_ifs <;> simp_all [List.isEmpty_iff]
  · split_ifs <;> simp_all [List.isEmpty_iff]
  · split_ifs <;> simp_all [List.isEmpty_iff]
  · split_ifs <;> simp_all [List.isEmpty_iff]
  · intro f arc
    split_ifs <;> simp_all [List.isEmpty_iff]
  · intro f arc
    split_ifs <;> simp_all [List.isEmpty_iff]
  · intro f arc
    split_ifs <;> simp_all [List.isEmpty_iff]

/-- Witness for C8 (amended) at a concrete single-mode configuration. -/
theorem c8_single_mode_witness :
    (orbitsOnly.identifier ≠ "<all>") ∧
      Action.writeOrbit (.plain cfgOC.fileNameOrbit)
          (orbitsOnly.orbits.get orbitsOnly.identifier) ∈
        writeActions cfgOC orbitsOnly := by
  have hns : orbitsOnly.identifier ≠ "<all>" := by simp [orbitsOnly]
  refine ⟨hns, ?_⟩
  exact (c8_single_mode cfgOC orbitsOnly 0 "X" hns).2.2.1.mpr
    ⟨by simp [cfgOC], by simp [orbitsOnly, SatMap.get]⟩

/-- Counterexample to C8 as stated: the selected identifier has orbit
data but no clock records, and the clock output file is configured; the
clock artifact is skipped, yet NO warning is logged — the write phase
produces exactly the orbit write and its statistics summary. -/
theorem c8_warning_counterexample :
    orbitsOnly.clocks.get orbitsOnly.identifier = [] ∧
      cfgOC.fileNameClock ≠ "" ∧
      writeActions cfgOC orbitsOnly =
        [.writeOrbit (.plain "orb") [⟨7, ⟨1, 2, 3⟩, none⟩], .printStatistics] := by
  refine ⟨rfl, by simp [cfgOC], ?_⟩
  simp [writeActions, orbitsOnly, cfgOC, SatMap.get]

/-- Claim C9: in wildcard mode each artifact is written independently,
only when its path is configured, for exactly the identifiers whose
sequence is non-empty, to the configured path with `"." ++ identifier`
appended to the base name; nothing else (plain-path writes, statistics,
warnings) is produced. -/
theorem c9_wildcard_mode (cfg : WriteConfig) (a : Accum)
    (hall : a.identifier = "<all>")
    (hwo : a.orbits.WF) (hwc : a.clocks.WF) (hwv : a.covs.WF) :
    (∀ id, Action.writeOrbit (.appendedBaseName cfg.fileNameOrbit ("." ++ id))
          (a.orbits.get id) ∈
        writeActions cfg a ↔ cfg.fileNameOrbit ≠ "" ∧ a.orbits.get id ≠ []) ∧
      (∀ id, Action.writeClock (.appendedBaseName cfg.fileNameClock ("." ++ id))
          (a.clocks.get id) ∈
        writeActions cfg a ↔ cfg.fileNameClock ≠ "" ∧ a.clocks.get id ≠ []) ∧
      (∀ id, Action.writeCov (.appendedBaseName cfg.fileNameCov ("." ++ id))
          (a.covs.get id) ∈
        writeActions cfg a ↔ cfg.fileNameCov ≠ "" ∧ a.covs.get id ≠ []) ∧
      (∀ p arc, Action.writeOrbit (.plain p) arc ∉ writeActions cfg a) ∧
      (∀ p arc, Action.writeClock (.plain p) arc ∉ writeActions cfg a) ∧
      (∀ p arc, Action.writeCov (.plain p) arc ∉ writeActions cfg a) ∧
      (Action.printStatistics ∉ writeActions cfg a) ∧
      (∀ s, Action.warnNoData s ∉ writeActions cfg a) := by
  have hw : writeActions cfg a =
      wildcardWrites .writeOrbit cfg.fileNameOrbit a.orbits ++
        wildcardWrites .writeClock cfg.fileNameClock a.clocks ++
        wildcardWrites .writeCov cfg.fileNameCov a.covs := by
    unfold writeActions
    rw [if_pos hall]
  refine ⟨fun id => ?_, fun id => ?_, fun id => ?_, fun p arc => ?_, fun p arc => ?_,
    fun p arc => ?_, ?_, fun s => ?_⟩
  · rw [hw, List.mem_append, List.mem_append,
      mem_wildcardWrites_suffix .writeOrbit _ _ hwo id (fun x d y d' h => by injection h)]
    constructor
    · rintro ((h | h) | h)
      · exact h
      · exact absurd h (not_mem_wildcardWrites _ _ _ _ (fun p s d hx => by simp at hx))
      · exact absurd h (not_mem_wildcardWrites _ _ _ _ (fun p s d hx => by simp at hx))
    · intro h
      exact Or.inl (Or.inl h)
  · rw [hw, List.mem_append, List.mem_append,
      mem_wildcardWrites_suffix .writeClock _ _ hwc id (fun x d y d' h => by injection h)]
    constructor
    · rintro ((h | h) | h)
      · exact absurd h (not_mem_wildcardWrites _ _ _ _ (fun p s d hx => by simp at hx))
      · exact h
      · exact absurd h (not_mem_wildcardWrites _ _ _ _ (fun p s d hx => by simp at hx))
    · intro h
      exact Or.inl (Or.inr h)
  · rw [hw, List.mem_append, List.mem_append,
      mem_wildcardWrites_suffix .writeCov _ _ hwv id (fun x d y d' h => by injection h)]
    constructor
    · rintro ((h | h) | h)
      · exact absurd h (not_mem_wildcardWrites _ _ _ _ (fun p s d hx => by simp at hx))
      · exact absurd h (not_mem_wildcardWrites _ _ _ _ (fun p s d hx => by simp at hx))
      · exact h
    · intro h
      exact Or.inr h
  all_goals rw [hw, List.mem_append, List.mem_append]
  all_goals rintro ((h | h) | h) <;>
    exact absurd h (not_mem_wildcardWrites _ _ _ _ (fun p s d hx => by simp at hx))

/-- Fixture: a wildcard-mode accumulator with one non-empty and one empty
orbit arc. -/
def accAll : Accum := ⟨"<all>", [("L01", [⟨7, ⟨1, 2, 3⟩, none⟩]), ("L02", [])], [], [], 0⟩

/-- Witness for C9 at a concrete wildcard-mode state. -/
theorem c9_wildcard_mode_witness :
    (Action.writeOrbit (.appendedBaseName "orb" ("." ++ "L01"))
          (accAll.orbits.get "L01") ∈
        writeActions ⟨"orb", "", ""⟩ accAll) ∧
      Action.printStatistics ∉ writeActions ⟨"orb", "", ""⟩ accAll := by
  have hwo : accAll.orbits.WF := by simp [accAll, SatMap.WF]
  have hwc : accAll.clocks.WF := by simp [accAll, SatMap.WF]
  have hwv : accAll.covs.WF := by simp [accAll, SatMap.WF]
  have hall : accAll.identifier = "<all>" := rfl
  constructor
  · exact ((c9_wildcard_mode ⟨"orb", "", ""⟩ accAll hall hwo hwc hwv).1 "L01").mpr
      ⟨by simp, by simp [accAll, SatMap.get]⟩
  · exact (c9_wildcard_mode ⟨"orb", "", ""⟩ accAll hall hwo hwc hwv).2.2.2.2.2.2.1

end Sp3
